import Mathlib

/-!
Shallow embedding of the SmartTrack inventory backend (src/server.js).

The mongoose collections become lists inside a `DB` record; each Express
handler becomes a function from the request data and the database to a
`HandlerResult` holding the HTTP response, the database after the call, and
a trace of the side effects the call performed, in order.

JavaScript try/catch behaviour is modelled by a `Failures` record of flags:
a flag set means the corresponding `await ...save()` / transport call throws
(storage write rejected / email API error).  A throwing save applies no
state change; the surrounding catch decides what the caller sees, exactly
as in the source.

Server-assigned timestamps and the decorative HTML markup / emoji of the
email bodies are elided; every interpolated value of the templates is kept.
-/

namespace SmartTrack

/-- Collection `Stock` (server.js lines 45-49): product name and quantity. -/
structure Stock where
  name : String
  qty : Int
deriving Repr, DecidableEq

/-- Collection `Staff` (server.js lines 51-58). -/
structure Staff where
  name : String
  phone : String
  email : String
  username : String
  password : String
deriving Repr, DecidableEq

/-- Collection `StockLog` (server.js lines 60-67), the audit records.
The server-assigned `timestamp` is elided. -/
structure StockLogRecord where
  productName : String
  operation : String
  amount : Int
  staffName : String
deriving Repr, DecidableEq

/-- Collection `Enquiry` (server.js lines 70-81): tagged union of the
low-stock alerts and the staff enquiries, discriminated by `type`. -/
structure Enquiry where
  type : String
  staffName : Option String
  staffEmail : Option String
  staffUsername : Option String
  productName : String
  quantity : Option Int
  currentStock : Option Int
  message : String
deriving Repr, DecidableEq

/-- The document store: the four collections. -/
structure DB where
  stocks : List Stock
  staffAccounts : List Staff
  logs : List StockLogRecord
  enquiries : List Enquiry
deriving Repr, DecidableEq

/-- The environment variables the email paths read. -/
structure Env where
  adminEmail : String
  emailUser : String
deriving Repr, DecidableEq

/-- Which storage writes / transport calls throw during one request. -/
structure Failures where
  stockSaveFails : Bool
  logSaveFails : Bool
  enquirySaveFails : Bool
  emailDeliveryFails : Bool
deriving Repr, DecidableEq

/-- The run in which every storage write and the email transport succeed. -/
def noFailures : Failures :=
  { stockSaveFails := false, logSaveFails := false,
    enquirySaveFails := false, emailDeliveryFails := false }

/-- HTTP responses the modelled handlers produce. -/
inductive Response where
  | ok (message : String)
  | badRequest (error : String)
  | notFound (error : String)
  | serverError
  | redirect (location : String)
deriving Repr, DecidableEq

/-- A response counts as successful exactly when it is a 200 json reply. -/
def Response.isOk : Response → Bool
  | Response.ok _ => true
  | _ => false

/-- The `mailOptions` shape handed to `sendEmail` (server.js line 107).
The source field `to` is a reserved token of Lean, so it is named
`recipient` here. -/
structure MailOptions where
  recipient : String
  senderName : String
  subject : String
  html : String
deriving Repr, DecidableEq

/-- Result shape of `sendEmail` (server.js lines 129 and 136). -/
inductive SendResult where
  | success (messageId : String)
  | failure (error : String)
deriving Repr, DecidableEq

/-- One observable side effect of a request, in the order performed. -/
inductive Effect where
  | persistQty (storedName : String) (newQty : Int)
  | thresholdEval (productName : String) (newQty : Int)
  | enquirySave (e : Enquiry)
  | emailSend (mail : MailOptions)
  | auditWrite (log : StockLogRecord)
deriving Repr, DecidableEq

def Effect.isPersistQty : Effect → Bool
  | Effect.persistQty _ _ => true
  | _ => false

def Effect.isThresholdEval : Effect → Bool
  | Effect.thresholdEval _ _ => true
  | _ => false

def Effect.isEnquirySave : Effect → Bool
  | Effect.enquirySave _ => true
  | _ => false

def Effect.isEmailSend : Effect → Bool
  | Effect.emailSend _ => true
  | _ => false

def Effect.isAuditWrite : Effect → Bool
  | Effect.auditWrite _ => true
  | _ => false

/-- Result of one handler call: response, database after the call, and the
side effects that were actually performed, in order. -/
structure HandlerResult where
  response : Response
  db : DB
  trace : List Effect
deriving Repr, DecidableEq

/-- Model of `req.session.username || "Unknown Staff"` (server.js line 485,
508, 538).  An absent session principal and the empty string are both falsy
in JavaScript, so the session username is modelled as a `String` in which
the empty string stands for a missing principal. -/
def staffNameOrUnknown (sessionUsername : String) : String :=
  if sessionUsername = "" then "Unknown Staff" else sessionUsername

/-- Mongoose in-place update then save of a fetched stock document: the
entry whose stored name matches is replaced with the new quantity. -/
def saveStockQty (stocks : List Stock) (storedName : String) (newQty : Int) :
    List Stock :=
  stocks.map fun s => if s.name = storedName then { s with qty := newQty } else s

/-- Exact lookup `Stock.findOne({ name })` (server.js lines 498 and 521). -/
def findStockExact (db : DB) (name : String) : Option Stock :=
  db.stocks.find? fun s => s.name = name

/-- ASCII lowercasing of one character code, the effect of the regex flag
`"i"` on the letters A-Z. -/
def lowerCode (c : Char) : Nat :=
  if 65 ≤ c.toNat ∧ c.toNat ≤ 90 then c.toNat + 32 else c.toNat

/-- Case-insensitive full-string match, the semantics of
`new RegExp(backtick-caret-name-dollar, "i")` on plain product names. -/
def ciMatch (a b : String) : Prop :=
  a.data.map lowerCode = b.data.map lowerCode

instance (a b : String) : Decidable (ciMatch a b) := by
  unfold ciMatch
  infer_instance

/-- Case-insensitive lookup
`Stock.findOne({ name: new RegExp(..., "i") })` (server.js line 473). -/
def findStockCI (db : DB) (name : String) : Option Stock :=
  db.stocks.find? fun s => decide (ciMatch s.name name)

/-- Lookup `Staff.findOne({ username })` (server.js lines 144 and 280). -/
def findStaffByUsername (db : DB) (username : String) : Option Staff :=
  db.staffAccounts.find? fun st => st.username = username

/-- The Brevo transactional-email API call (server.js line 126): it either
returns a message id or throws, depending on the transport. -/
def sendTransacEmail (transportFails : Bool) : Except String String :=
  if transportFails then Except.error "Brevo API error" else Except.ok "message-id"

/-- `sendEmail` (server.js lines 107-138): wraps the transport call in
try/catch and reports `{success: true, messageId}` or
`{success: false, error}`; it never throws to its caller. -/
def sendEmail (transportFails : Bool) (_mail : MailOptions) : SendResult :=
  match sendTransacEmail transportFails with
  | Except.ok id => SendResult.success id
  | Except.error e => SendResult.failure e

/-- The CRITICALLY LOW versus LOW STOCK status ternary of the alert email
body (server.js line 177). -/
def alertStatus (currentQty : Int) : String :=
  if currentQty < 100 then "CRITICALLY LOW" else "LOW STOCK"

/-- The `message` field of a stored low-stock alert (server.js line 159). -/
def lowStockMessage (productName : String) (currentQty operationAmount : Int) :
    String :=
  "Low stock alert: " ++ productName ++ " is now at " ++ toString currentQty ++
    "kg after reduction of " ++ toString operationAmount ++ "kg"

/-- The Enquiry document built and saved by `sendLowStockAlert`
(server.js lines 151-160). -/
def lowStockEnquiry (staff : Staff) (productName : String)
    (currentQty operationAmount : Int) : Enquiry :=
  { type := "low_stock"
    staffName := some staff.name
    staffEmail := some staff.email
    staffUsername := some staff.username
    productName := productName
    quantity := some operationAmount
    currentStock := some currentQty
    message := lowStockMessage productName currentQty operationAmount }

/-- The alert mail of `sendLowStockAlert` (server.js lines 166-190); the
HTML markup and the current date line are elided, the interpolated values
are kept in order. -/
def alertMailOptions (env : Env) (productName : String)
    (currentQty operationAmount : Int) (staff : Staff) : MailOptions :=
  { recipient := env.adminEmail
    senderName := "SmartTrack Alert System"
    subject := "LOW STOCK ALERT: " ++ productName ++ " below 200kg"
    html := "LOW STOCK ALERT Product: " ++ productName ++
      " Current Quantity: " ++ toString currentQty ++ " kg" ++
      " Reduced By: " ++ toString operationAmount ++ " kg" ++
      " Status: " ++ alertStatus currentQty ++
      " Staff Name: " ++ staff.name ++
      " Staff Email: " ++ staff.email ++
      " Staff Username: " ++ staff.username }

/-- `sendLowStockAlert` (server.js lines 141-202).  Looks up the staff
account; if absent it logs and returns without any effect.  Otherwise it
saves a low-stock Enquiry and then attempts one email; the whole body sits
in a try/catch, so a throwing enquiry save is swallowed (skipping the email)
and a failed delivery is only logged.  Returns the database after the call
and the effects performed. -/
def sendLowStockAlert (env : Env) (f : Failures) (db : DB)
    (staffUsername productName : String) (currentQty operationAmount : Int) :
    DB × List Effect :=
  match findStaffByUsername db staffUsername with
  | none => (db, [])
  | some staff =>
    let e := lowStockEnquiry staff productName currentQty operationAmount
    if f.enquirySaveFails then
      (db, [])
    else
      let db1 := { db with enquiries := db.enquiries ++ [e] }
      let mail := alertMailOptions env productName currentQty operationAmount staff
      let _emailResult := sendEmail f.emailDeliveryFails mail
      (db1, [Effect.enquirySave e, Effect.emailSend mail])

/-- Handler of `POST /api/stock/add` (server.js lines 467-493), the
addOrIncrease operation.  The body fields are `name` (empty string for a
missing or empty name, both falsy in the source check `!name`) and `qty`
(`none` when missing or not numeric, making `isNaN(qty)` true). -/
def addStock (f : Failures) (sessionUsername : String) (db : DB)
    (name : String) (qty : Option Int) : HandlerResult :=
  match qty with
  | none => { response := Response.badRequest "Invalid input", db := db, trace := [] }
  | some q =>
    if name = "" ∨ q < 0 then
      { response := Response.badRequest "Invalid input", db := db, trace := [] }
    else
      match findStockCI db name with
      | some stock =>
        if f.stockSaveFails then
          { response := Response.serverError, db := db, trace := [] }
        else
          let newQty := stock.qty + q
          let db1 := { db with stocks := saveStockQty db.stocks stock.name newQty }
          if f.logSaveFails then
            { response := Response.serverError, db := db1,
              trace := [Effect.persistQty stock.name newQty] }
          else
            let log : StockLogRecord :=
              { productName := name, operation := "Increase", amount := q,
                staffName := staffNameOrUnknown sessionUsername }
            { response := Response.ok "Stock added/updated",
              db := { db1 with logs := db1.logs ++ [log] },
              trace := [Effect.persistQty stock.name newQty, Effect.auditWrite log] }
      | none =>
        if f.stockSaveFails then
          { response := Response.serverError, db := db, trace := [] }
        else
          let db1 := { db with stocks := db.stocks ++ [{ name := name, qty := q }] }
          if f.logSaveFails then
            { response := Response.serverError, db := db1,
              trace := [Effect.persistQty name q] }
          else
            let log : StockLogRecord :=
              { productName := name, operation := "Add", amount := q,
                staffName := staffNameOrUnknown sessionUsername }
            { response := Response.ok "Stock added/updated",
              db := { db1 with logs := db1.logs ++ [log] },
              trace := [Effect.persistQty name q, Effect.auditWrite log] }

/-- Handler of `POST /api/stock/increase` (server.js lines 495-516).
Exact-name lookup; no validation of `amount` is performed by the source. -/
def increaseStock (f : Failures) (sessionUsername : String) (db : DB)
    (name : String) (amount : Int) : HandlerResult :=
  match findStockExact db name with
  | none => { response := Response.notFound "Product not found", db := db, trace := [] }
  | some stock =>
    let newQty := stock.qty + amount
    if f.stockSaveFails then
      { response := Response.serverError, db := db, trace := [] }
    else
      let db1 := { db with stocks := saveStockQty db.stocks stock.name newQty }
      if f.logSaveFails then
        { response := Response.serverError, db := db1,
          trace := [Effect.persistQty stock.name newQty] }
      else
        let log : StockLogRecord :=
          { productName := name, operation := "Increase", amount := amount,
            staffName := staffNameOrUnknown sessionUsername }
        { response := Response.ok "Quantity increased",
          db := { db1 with logs := db1.logs ++ [log] },
          trace := [Effect.persistQty stock.name newQty, Effect.auditWrite log] }

/-- The database right after the quantity save of a decrease
(server.js lines 526-527). -/
def decreaseDB1 (db : DB) (stock : Stock) (amount : Int) : DB :=
  { db with stocks := saveStockQty db.stocks stock.name (stock.qty - amount) }

/-- The threshold branch of a decrease (server.js lines 530-532):
`if (stock.qty < 200 && req.session.username) await sendLowStockAlert(...)`
on the database holding the already-saved new quantity. -/
def decreaseAlerted (env : Env) (f : Failures) (sessionUsername : String)
    (db : DB) (name : String) (amount : Int) (stock : Stock) :
    DB × List Effect :=
  if stock.qty - amount < 200 ∧ sessionUsername ≠ "" then
    sendLowStockAlert env f (decreaseDB1 db stock amount) sessionUsername name
      (stock.qty - amount) amount
  else (decreaseDB1 db stock amount, [])

/-- The audit record a decrease writes (server.js lines 534-539). -/
def decreaseLog (sessionUsername name : String) (amount : Int) :
    StockLogRecord :=
  { productName := name, operation := "Decrease", amount := amount,
    staffName := staffNameOrUnknown sessionUsername }

/-- Handler of `POST /api/stock/decrease` (server.js lines 518-546).
Exact-name lookup, insufficient-stock guard before any write, then save the
new quantity, then the threshold check (line 530) with its alert, then the
audit StockLog write, then the 200 reply.  A throwing stock save or StockLog
save reaches the outer catch and yields the 500 reply; `sendLowStockAlert`
never throws. -/
def decreaseStock (env : Env) (f : Failures) (sessionUsername : String)
    (db : DB) (name : String) (amount : Int) : HandlerResult :=
  match findStockExact db name with
  | none => { response := Response.notFound "Product not found", db := db, trace := [] }
  | some stock =>
    if stock.qty < amount then
      { response := Response.badRequest "Not enough stock", db := db, trace := [] }
    else if f.stockSaveFails then
      { response := Response.serverError, db := db, trace := [] }
    else
      let alerted := decreaseAlerted env f sessionUsername db name amount stock
      if f.logSaveFails then
        { response := Response.serverError, db := alerted.1,
          trace := Effect.persistQty stock.name (stock.qty - amount) ::
            Effect.thresholdEval name (stock.qty - amount) :: alerted.2 }
      else
        let log := decreaseLog sessionUsername name amount
        { response := Response.ok "Quantity decreased",
          db := { alerted.1 with logs := alerted.1.logs ++ [log] },
          trace := Effect.persistQty stock.name (stock.qty - amount) ::
            Effect.thresholdEval name (stock.qty - amount) ::
            (alerted.2 ++ [Effect.auditWrite log]) }

/-- The staff enquiry mail (server.js lines 299-322); markup and the date
line elided, interpolated values kept in order. -/
def enquiryMailOptions (env : Env) (name email sessionUsername : String)
    (productName : String) (quantity : Int) (message : String) : MailOptions :=
  { recipient := env.adminEmail
    senderName := "SmartTrack Enquiry System"
    subject := "New Product Enquiry: " ++ productName
    html := "NEW PRODUCT ENQUIRY Product: " ++ productName ++
      " Quantity Needed: " ++ toString quantity ++ " kg" ++
      " Staff Name: " ++ name ++
      " Staff Email: " ++ email ++
      " Staff Username: " ++ sessionUsername ++
      " Message: " ++ message }

/-- Handler of `POST /api/enquiries` (server.js lines 275-336), behind
`requireStaffAuth` (redirect when no session username).  A throwing enquiry
save reaches the outer catch (500); a failed email delivery is only logged
and the handler still replies success. -/
def submitEnquiry (env : Env) (f : Failures) (sessionUsername : String)
    (db : DB) (name email productName : String) (quantity : Int)
    (message : String) : HandlerResult :=
  if sessionUsername = "" then
    { response := Response.redirect "/staff-login", db := db, trace := [] }
  else
    match findStaffByUsername db sessionUsername with
    | none => { response := Response.badRequest "Staff not found", db := db, trace := [] }
    | some _staff =>
      let e : Enquiry :=
        { type := "staff_enquiry"
          staffName := some name
          staffEmail := some email
          staffUsername := some sessionUsername
          productName := productName
          quantity := some quantity
          currentStock := none
          message := message }
      if f.enquirySaveFails then
        { response := Response.serverError, db := db, trace := [] }
      else
        let db1 := { db with enquiries := db.enquiries ++ [e] }
        let mail := enquiryMailOptions env name email sessionUsername productName
          quantity message
        let _emailResult := sendEmail f.emailDeliveryFails mail
        { response := Response.ok "Enquiry submitted successfully!", db := db1,
          trace := [Effect.enquirySave e, Effect.emailSend mail] }

/-- One stock-mutation request, for reasoning about sequences of calls. -/
inductive StockOp where
  | addOrIncrease (sessionUsername name : String) (qty : Option Int)
  | increase (sessionUsername name : String) (amount : Int)
  | decrease (sessionUsername name : String) (amount : Int)
deriving Repr, DecidableEq

/-- Database reached after one stock-mutation request. -/
def applyOp (env : Env) (f : Failures) (db : DB) : StockOp → DB
  | StockOp.addOrIncrease u n q => (addStock f u db n q).db
  | StockOp.increase u n a => (increaseStock f u db n a).db
  | StockOp.decrease u n a => (decreaseStock env f u db n a).db

/-- Database reached after a sequence of stock-mutation requests. -/
def applyOps (env : Env) (f : Failures) (db : DB) (ops : List StockOp) : DB :=
  ops.foldl (applyOp env f) db

/-- The quantity invariant of the Product Stock collection. -/
def NonnegStocks (db : DB) : Prop :=
  ∀ s ∈ db.stocks, 0 ≤ s.qty

/-- An operation whose increase amount is a non-negative number (the add
endpoint validates this itself; the increase endpoint does not). -/
def IncreaseAmountNonneg : StockOp → Prop
  | StockOp.increase _ _ a => 0 ≤ a
  | _ => True

/-- First index where the predicate holds is strictly earlier than the first
index of the second predicate, and the second predicate does occur. -/
def OccursBefore (tr : List Effect) (p q : Effect → Bool) : Prop :=
  tr.findIdx q < tr.length ∧ tr.findIdx p < tr.findIdx q

instance (tr : List Effect) (p q : Effect → Bool) :
    Decidable (OccursBefore tr p q) := by
  unfold OccursBefore
  infer_instance

/-- Concrete environment used by witnesses and counterexamples. -/
def envTest : Env :=
  { adminEmail := "admin@smarttrack.test", emailUser := "noreply@smarttrack.test" }

/-- A registered staff account used by witnesses and counterexamples. -/
def aliceStaff : Staff :=
  { name := "Alice", phone := "1234567890", email := "alice@smarttrack.test",
    username := "alice", password := "pw" }

/-- A store holding one product, Rice at 250, and the alice account. -/
def riceDB : DB :=
  { stocks := [{ name := "Rice", qty := 250 }], staffAccounts := [aliceStaff],
    logs := [], enquiries := [] }

/-- A store holding Rice at 250 and no staff accounts at all. -/
def riceNoStaffDB : DB :=
  { stocks := [{ name := "Rice", qty := 250 }], staffAccounts := [],
    logs := [], enquiries := [] }

/-- The failure pattern in which only the email transport fails. -/
def emailOnlyFailure : Failures :=
  { stockSaveFails := false, logSaveFails := false,
    enquirySaveFails := false, emailDeliveryFails := true }

/-- The failure pattern in which only the audit StockLog save throws. -/
def logSaveOnlyFailure : Failures :=
  { stockSaveFails := false, logSaveFails := true,
    enquirySaveFails := false, emailDeliveryFails := false }

/- ------------------------------------------------------------------ -/
/- Helper lemmas about the embedded handlers                           -/
/- ------------------------------------------------------------------ -/

theorem sendLowStockAlert_staff_none (env : Env) (f : Failures) (db : DB)
    (u n : String) (q a : Int) (h : findStaffByUsername db u = none) :
    sendLowStockAlert env f db u n q a = (db, []) := by
  unfold sendLowStockAlert
  rw [h]

theorem sendLowStockAlert_save_fails (env : Env) (f : Failures) (db : DB)
    (u n : String) (q a : Int) (staff : Staff)
    (h : findStaffByUsername db u = some staff)
    (hf : f.enquirySaveFails = true) :
    sendLowStockAlert env f db u n q a = (db, []) := by
  unfold sendLowStockAlert
  rw [h]
  simp [hf]

theorem sendLowStockAlert_delivers (env : Env) (f : Failures) (db : DB)
    (u n : String) (q a : Int) (staff : Staff)
    (h : findStaffByUsername db u = some staff)
    (hf : f.enquirySaveFails = false) :
    sendLowStockAlert env f db u n q a =
      ({ db with enquiries := db.enquiries ++ [lowStockEnquiry staff n q a] },
       [Effect.enquirySave (lowStockEnquiry staff n q a),
        Effect.emailSend (alertMailOptions env n q a staff)]) := by
  unfold sendLowStockAlert
  rw [h]
  simp [hf]

/-- The alert path never touches the stocks, logs or staff collections. -/
theorem sendLowStockAlert_preserves (env : Env) (f : Failures) (db : DB)
    (u n : String) (q a : Int) :
    (sendLowStockAlert env f db u n q a).1.stocks = db.stocks ∧
    (sendLowStockAlert env f db u n q a).1.logs = db.logs ∧
    (sendLowStockAlert env f db u n q a).1.staffAccounts = db.staffAccounts := by
  unfold sendLowStockAlert
  cases h : findStaffByUsername db u with
  | none => exact ⟨rfl, rfl, rfl⟩
  | some staff => cases hf : f.enquirySaveFails <;> simp

/-- The alert path emits only enquiry-save and email-send effects. -/
theorem sendLowStockAlert_trace_kinds (env : Env) (f : Failures) (db : DB)
    (u n : String) (q a : Int) :
    ∀ e ∈ (sendLowStockAlert env f db u n q a).2,
      e.isPersistQty = false ∧ e.isThresholdEval = false ∧
      e.isAuditWrite = false := by
  unfold sendLowStockAlert
  cases h : findStaffByUsername db u with
  | none => intro e he; simp at he
  | some staff =>
    cases hf : f.enquirySaveFails with
    | true => intro e he; simp at he
    | false =>
      intro e he
      simp at he
      rcases he with rfl | rfl <;>
        exact ⟨rfl, rfl, rfl⟩

/-- An insufficient decrease is rejected with no state change and no
effects, before any persistence (server.js line 523). -/
theorem decrease_insufficient_eq (env : Env) (f : Failures) (u : String)
    (db : DB) (name : String) (amount : Int) (stock : Stock)
    (hfind : findStockExact db name = some stock)
    (hlt : stock.qty < amount) :
    decreaseStock env f u db name amount =
      { response := Response.badRequest "Not enough stock", db := db,
        trace := [] } := by
  unfold decreaseStock
  rw [hfind]
  simp [hlt]

/-- First index in a list ending in the single matching element. -/
theorem findIdx_append_single {α : Type} (p : α → Bool) (l : List α) (y : α)
    (h : ∀ x ∈ l, p x = false) (hy : p y = true) :
    (l ++ [y]).findIdx p = l.length := by
  induction l with
  | nil => simp [List.findIdx_cons, hy]
  | cons a t ih =>
    have ha := h a (by simp)
    simp [List.findIdx_cons, ha]
    exact ih fun x hx => h x (by simp [hx])

/-- Normal form of a decrease whose quantity save and audit save both
succeed: the guards passed, the new quantity is saved, the threshold branch
runs, the audit record is appended, and the reply is the 200 json. -/
theorem decrease_ok_eq (env : Env) (f : Failures) (u : String) (db : DB)
    (name : String) (amount : Int) (stock : Stock)
    (hfind : findStockExact db name = some stock)
    (hamt : ¬ stock.qty < amount)
    (hss : f.stockSaveFails = false) (hls : f.logSaveFails = false) :
    decreaseStock env f u db name amount =
      { response := Response.ok "Quantity decreased"
        db := { (decreaseAlerted env f u db name amount stock).1 with
          logs := (decreaseAlerted env f u db name amount stock).1.logs ++
            [decreaseLog u name amount] }
        trace := Effect.persistQty stock.name (stock.qty - amount) ::
          Effect.thresholdEval name (stock.qty - amount) ::
          ((decreaseAlerted env f u db name amount stock).2 ++
            [Effect.auditWrite (decreaseLog u name amount)]) } := by
  unfold decreaseStock
  rw [hfind]
  simp [if_neg hamt, hss, hls]

/-- Normal form of a decrease whose quantity save succeeds and whose audit
StockLog save throws: the 500 reply, with the quantity change and any alert
already committed and no audit record. -/
theorem decrease_logfail_eq (env : Env) (f : Failures) (u : String) (db : DB)
    (name : String) (amount : Int) (stock : Stock)
    (hfind : findStockExact db name = some stock)
    (hamt : ¬ stock.qty < amount)
    (hss : f.stockSaveFails = false) (hls : f.logSaveFails = true) :
    decreaseStock env f u db name amount =
      { response := Response.serverError
        db := (decreaseAlerted env f u db name amount stock).1
        trace := Effect.persistQty stock.name (stock.qty - amount) ::
          Effect.thresholdEval name (stock.qty - amount) ::
          (decreaseAlerted env f u db name amount stock).2 } := by
  unfold decreaseStock
  rw [hfind]
  simp [if_neg hamt, hss, hls]

/-- The threshold branch of a decrease emits only enquiry-save and
email-send effects. -/
theorem decreaseAlerted_trace_kinds (env : Env) (f : Failures) (u : String)
    (db : DB) (name : String) (amount : Int) (stock : Stock) :
    ∀ e ∈ (decreaseAlerted env f u db name amount stock).2,
      e.isPersistQty = false ∧ e.isThresholdEval = false ∧
      e.isAuditWrite = false := by
  unfold decreaseAlerted
  split
  · exact sendLowStockAlert_trace_kinds env f (decreaseDB1 db stock amount) u
      name (stock.qty - amount) amount
  · intro e he
    simp at he

/-- The email status line is CRITICALLY LOW exactly below 100
(server.js line 177). -/
theorem alertStatus_iff (x : Int) :
    alertStatus x = "CRITICALLY LOW" ↔ x < 100 := by
  by_cases h : x < 100 <;> simp [alertStatus, h]

/-- Invalid input to addOrIncrease: rejected before touching storage. -/
theorem add_invalid_eq (f : Failures) (u : String) (db : DB) (name : String)
    (q? : Option Int)
    (h : name = "" ∨ q? = none ∨ ∃ q, q? = some q ∧ q < 0) :
    addStock f u db name q? =
      { response := Response.badRequest "Invalid input", db := db,
        trace := [] } := by
  unfold addStock
  match q? with
  | none => rfl
  | some q =>
    rcases h with h | h | ⟨q2, hq2, hneg⟩
    · simp [h]
    · exact absurd h (by simp)
    · rw [Option.some.injEq] at hq2
      subst hq2
      dsimp only
      rw [if_pos (Or.inr hneg)]

/-- A throwing stock save aborts addOrIncrease with no state change. -/
theorem add_stockfail_eq (f : Failures) (u : String) (db : DB) (name : String)
    (q : Int) (hv : ¬(name = "" ∨ q < 0)) (hss : f.stockSaveFails = true) :
    addStock f u db name (some q) =
      { response := Response.serverError, db := db, trace := [] } := by
  unfold addStock
  dsimp only
  rw [if_neg hv]
  cases hci : findStockCI db name <;> simp [hci, hss]

/-- addOrIncrease on a fresh name with all saves succeeding. -/
theorem add_ok_fresh_eq (f : Failures) (u : String) (db : DB) (name : String)
    (q : Int) (hv : ¬(name = "" ∨ q < 0)) (hci : findStockCI db name = none)
    (hss : f.stockSaveFails = false) (hls : f.logSaveFails = false) :
    addStock f u db name (some q) =
      { response := Response.ok "Stock added/updated"
        db := { db with
                stocks := db.stocks ++ [{ name := name, qty := q }],
                logs := db.logs ++
                  [{ productName := name, operation := "Add", amount := q,
                     staffName := staffNameOrUnknown u }] }
        trace := [Effect.persistQty name q,
          Effect.auditWrite
            { productName := name, operation := "Add", amount := q,
              staffName := staffNameOrUnknown u }] } := by
  unfold addStock
  dsimp only
  rw [if_neg hv, hci]
  simp [hss, hls]

/-- addOrIncrease on a fresh name whose audit save throws: quantity
persisted, 500 reply, no audit record. -/
theorem add_logfail_fresh_eq (f : Failures) (u : String) (db : DB)
    (name : String) (q : Int) (hv : ¬(name = "" ∨ q < 0))
    (hci : findStockCI db name = none)
    (hss : f.stockSaveFails = false) (hls : f.logSaveFails = true) :
    addStock f u db name (some q) =
      { response := Response.serverError
        db := { db with stocks := db.stocks ++ [{ name := name, qty := q }] }
        trace := [Effect.persistQty name q] } := by
  unfold addStock
  dsimp only
  rw [if_neg hv, hci]
  simp [hss, hls]

/-- addOrIncrease on an existing (case-insensitive) name with all saves
succeeding. -/
theorem add_ok_exist_eq (f : Failures) (u : String) (db : DB) (name : String)
    (q : Int) (stock : Stock) (hv : ¬(name = "" ∨ q < 0))
    (hci : findStockCI db name = some stock)
    (hss : f.stockSaveFails = false) (hls : f.logSaveFails = false) :
    addStock f u db name (some q) =
      { response := Response.ok "Stock added/updated"
        db := { db with
                stocks := saveStockQty db.stocks stock.name (stock.qty + q),
                logs := db.logs ++
                  [{ productName := name, operation := "Increase", amount := q,
                     staffName := staffNameOrUnknown u }] }
        trace := [Effect.persistQty stock.name (stock.qty + q),
          Effect.auditWrite
            { productName := name, operation := "Increase", amount := q,
              staffName := staffNameOrUnknown u }] } := by
  unfold addStock
  dsimp only
  rw [if_neg hv, hci]
  simp [hss, hls]

/-- addOrIncrease on an existing name whose audit save throws. -/
theorem add_logfail_exist_eq (f : Failures) (u : String) (db : DB)
    (name : String) (q : Int) (stock : Stock) (hv : ¬(name = "" ∨ q < 0))
    (hci : findStockCI db name = some stock)
    (hss : f.stockSaveFails = false) (hls : f.logSaveFails = true) :
    addStock f u db name (some q) =
      { response := Response.serverError
        db := { db with
                stocks := saveStockQty db.stocks stock.name (stock.qty + q) }
        trace := [Effect.persistQty stock.name (stock.qty + q)] } := by
  unfold addStock
  dsimp only
  rw [if_neg hv, hci]
  simp [hss, hls]

/-- increase on an unknown name: 404, no state change. -/
theorem inc_notfound_eq (f : Failures) (u : String) (db : DB) (name : String)
    (amount : Int) (hfind : findStockExact db name = none) :
    increaseStock f u db name amount =
      { response := Response.notFound "Product not found", db := db,
        trace := [] } := by
  unfold increaseStock
  rw [hfind]

/-- A throwing stock save aborts increase with no state change. -/
theorem inc_stockfail_eq (f : Failures) (u : String) (db : DB) (name : String)
    (amount : Int) (stock : Stock)
    (hfind : findStockExact db name = some stock)
    (hss : f.stockSaveFails = true) :
    increaseStock f u db name amount =
      { response := Response.serverError, db := db, trace := [] } := by
  unfold increaseStock
  rw [hfind]
  simp [hss]

/-- increase whose audit save throws: quantity persisted, 500 reply. -/
theorem inc_logfail_eq (f : Failures) (u : String) (db : DB) (name : String)
    (amount : Int) (stock : Stock)
    (hfind : findStockExact db name = some stock)
    (hss : f.stockSaveFails = false) (hls : f.logSaveFails = true) :
    increaseStock f u db name amount =
      { response := Response.serverError
        db := { db with
                stocks := saveStockQty db.stocks stock.name (stock.qty + amount) }
        trace := [Effect.persistQty stock.name (stock.qty + amount)] } := by
  unfold increaseStock
  rw [hfind]
  simp [hss, hls]

/-- increase with all saves succeeding. -/
theorem inc_ok_eq (f : Failures) (u : String) (db : DB) (name : String)
    (amount : Int) (stock : Stock)
    (hfind : findStockExact db name = some stock)
    (hss : f.stockSaveFails = false) (hls : f.logSaveFails = false) :
    increaseStock f u db name amount =
      { response := Response.ok "Quantity increased"
        db := { db with
                stocks := saveStockQty db.stocks stock.name (stock.qty + amount),
                logs := db.logs ++
                  [{ productName := name, operation := "Increase",
                     amount := amount, staffName := staffNameOrUnknown u }] }
        trace := [Effect.persistQty stock.name (stock.qty + amount),
          Effect.auditWrite
            { productName := name, operation := "Increase", amount := amount,
              staffName := staffNameOrUnknown u }] } := by
  unfold increaseStock
  rw [hfind]
  simp [hss, hls]

/-- decrease on an unknown name: 404, no state change. -/
theorem dec_notfound_eq (env : Env) (f : Failures) (u : String) (db : DB)
    (name : String) (amount : Int)
    (hfind : findStockExact db name = none) :
    decreaseStock env f u db name amount =
      { response := Response.notFound "Product not found", db := db,
        trace := [] } := by
  unfold decreaseStock
  rw [hfind]

/-- A throwing stock save aborts decrease with no state change. -/
theorem dec_stockfail_eq (env : Env) (f : Failures) (u : String) (db : DB)
    (name : String) (amount : Int) (stock : Stock)
    (hfind : findStockExact db name = some stock)
    (hamt : ¬ stock.qty < amount) (hss : f.stockSaveFails = true) :
    decreaseStock env f u db name amount =
      { response := Response.serverError, db := db, trace := [] } := by
  unfold decreaseStock
  rw [hfind]
  simp [if_neg hamt, hss]

/-- The threshold branch of a decrease never touches stocks or logs. -/
theorem decreaseAlerted_preserves (env : Env) (f : Failures) (u : String)
    (db : DB) (name : String) (amount : Int) (stock : Stock) :
    (decreaseAlerted env f u db name amount stock).1.stocks =
      saveStockQty db.stocks stock.name (stock.qty - amount) ∧
    (decreaseAlerted env f u db name amount stock).1.logs = db.logs := by
  unfold decreaseAlerted
  split
  · exact ⟨(sendLowStockAlert_preserves env f (decreaseDB1 db stock amount) u
        name (stock.qty - amount) amount).1,
      (sendLowStockAlert_preserves env f (decreaseDB1 db stock amount) u
        name (stock.qty - amount) amount).2.1⟩
  · exact ⟨rfl, rfl⟩

instance (op : StockOp) : Decidable (IncreaseAmountNonneg op) := by
  cases op <;> simp only [IncreaseAmountNonneg] <;> infer_instance

instance (db : DB) : Decidable (NonnegStocks db) := by
  unfold NonnegStocks
  infer_instance

/-- Saving one non-negative quantity keeps every stored quantity
non-negative. -/
theorem saveStockQty_nonneg {stocks : List Stock} {n : String} {q : Int}
    (h : ∀ s ∈ stocks, 0 ≤ s.qty) (hq : 0 ≤ q) :
    ∀ s ∈ saveStockQty stocks n q, 0 ≤ s.qty := by
  intro s hs
  unfold saveStockQty at hs
  rcases List.mem_map.1 hs with ⟨t, ht, hts⟩
  subst hts
  by_cases htn : t.name = n <;> simp [htn]
  · exact hq
  · exact h t ht

/-- addOrIncrease keeps every stored quantity non-negative: its own
validation rejects negative amounts. -/
theorem addStock_nonneg (f : Failures) (u : String) (db : DB) (name : String)
    (qty : Option Int) (hinv : NonnegStocks db) :
    NonnegStocks (addStock f u db name qty).db := by
  cases qty with
  | none =>
    rw [add_invalid_eq f u db name none (Or.inr (Or.inl rfl))]
    exact hinv
  | some q =>
    by_cases hv : name = "" ∨ q < 0
    · rw [add_invalid_eq f u db name (some q)
        (by rcases hv with h | h
            exacts [Or.inl h, Or.inr (Or.inr ⟨q, rfl, h⟩)])]
      exact hinv
    · have hq : 0 ≤ q := by
        push_neg at hv
        omega
      cases hci : findStockCI db name with
      | none =>
        cases hss : f.stockSaveFails with
        | true =>
          rw [add_stockfail_eq f u db name q hv hss]
          exact hinv
        | false =>
          cases hls : f.logSaveFails with
          | true =>
            rw [add_logfail_fresh_eq f u db name q hv hci hss hls]
            intro s hs
            rcases List.mem_append.1 hs with hs | hs
            · exact hinv s hs
            · simp at hs
              subst hs
              exact hq
          | false =>
            rw [add_ok_fresh_eq f u db name q hv hci hss hls]
            intro s hs
            rcases List.mem_append.1 hs with hs | hs
            · exact hinv s hs
            · simp at hs
              subst hs
              exact hq
      | some stock =>
        have hst : stock ∈ db.stocks := by
          unfold findStockCI at hci
          exact List.mem_of_find?_eq_some hci
        have hnew : 0 ≤ stock.qty + q := by
          have := hinv stock hst
          omega
        cases hss : f.stockSaveFails with
        | true =>
          rw [add_stockfail_eq f u db name q hv hss]
          exact hinv
        | false =>
          cases hls : f.logSaveFails with
          | true =>
            rw [add_logfail_exist_eq f u db name q stock hv hci hss hls]
            exact saveStockQty_nonneg hinv hnew
          | false =>
            rw [add_ok_exist_eq f u db name q stock hv hci hss hls]
            exact saveStockQty_nonneg hinv hnew

/-- increase with a non-negative amount keeps every stored quantity
non-negative. -/
theorem increaseStock_nonneg (f : Failures) (u : String) (db : DB)
    (name : String) (amount : Int) (ha : 0 ≤ amount)
    (hinv : NonnegStocks db) :
    NonnegStocks (increaseStock f u db name amount).db := by
  cases hfind : findStockExact db name with
  | none =>
    rw [inc_notfound_eq f u db name amount hfind]
    exact hinv
  | some stock =>
    have hst : stock ∈ db.stocks := by
      unfold findStockExact at hfind
      exact List.mem_of_find?_eq_some hfind
    have hnew : 0 ≤ stock.qty + amount := by
      have := hinv stock hst
      omega
    cases hss : f.stockSaveFails with
    | true =>
      rw [inc_stockfail_eq f u db name amount stock hfind hss]
      exact hinv
    | false =>
      cases hls : f.logSaveFails with
      | true =>
        rw [inc_logfail_eq f u db name amount stock hfind hss hls]
        exact saveStockQty_nonneg hinv hnew
      | false =>
        rw [inc_ok_eq f u db name amount stock hfind hss hls]
        exact saveStockQty_nonneg hinv hnew

/-- decrease keeps every stored quantity non-negative: the guard rejects
any amount exceeding the current quantity. -/
theorem decreaseStock_nonneg (env : Env) (f : Failures) (u : String)
    (db : DB) (name : String) (amount : Int) (hinv : NonnegStocks db) :
    NonnegStocks (decreaseStock env f u db name amount).db := by
  cases hfind : findStockExact db name with
  | none =>
    rw [dec_notfound_eq env f u db name amount hfind]
    exact hinv
  | some stock =>
    by_cases hamt : stock.qty < amount
    · rw [decrease_insufficient_eq env f u db name amount stock hfind hamt]
      exact hinv
    · have hnew : 0 ≤ stock.qty - amount := by omega
      cases hss : f.stockSaveFails with
      | true =>
        rw [dec_stockfail_eq env f u db name amount stock hfind hamt hss]
        exact hinv
      | false =>
        cases hls : f.logSaveFails with
        | true =>
          rw [decrease_logfail_eq env f u db name amount stock hfind hamt hss hls]
          intro s hs
          rw [(decreaseAlerted_preserves env f u db name amount stock).1] at hs
          exact saveStockQty_nonneg hinv hnew s hs
        | false =>
          rw [decrease_ok_eq env f u db name amount stock hfind hamt hss hls]
          intro s hs
          rw [(decreaseAlerted_preserves env f u db name amount stock).1] at hs
          exact saveStockQty_nonneg hinv hnew s hs

/-- One mutation request whose increase amount (if it is an increase) is
non-negative keeps every stored quantity non-negative. -/
theorem applyOp_nonneg (env : Env) (f : Failures) (db : DB) (op : StockOp)
    (hinv : NonnegStocks db) (hop : IncreaseAmountNonneg op) :
    NonnegStocks (applyOp env f db op) := by
  cases op with
  | addOrIncrease u n q => exact addStock_nonneg f u db n q hinv
  | increase u n a => exact increaseStock_nonneg f u db n a hop hinv
  | decrease u n a => exact decreaseStock_nonneg env f u db n a hinv

/-- A whole sequence of such requests keeps every stored quantity
non-negative. -/
theorem applyOps_nonneg (env : Env) (f : Failures) (db : DB)
    (ops : List StockOp) (hinv : NonnegStocks db)
    (hops : ∀ op ∈ ops, IncreaseAmountNonneg op) :
    NonnegStocks (applyOps env f db ops) := by
  induction ops generalizing db with
  | nil => exact hinv
  | cons op rest ih =>
    exact ih (applyOp env f db op)
      (applyOp_nonneg env f db op hinv (hops op (List.mem_cons_self op rest)))
      fun o ho => hops o (List.mem_cons_of_mem op ho)

/- ------------------------------------------------------------------ -/
/- Claim theorems                                                      -/
/- ------------------------------------------------------------------ -/

/-- C1 counterexample: in a concrete successful decrease (alice takes Rice
from 250 to 150) the audit-record write does NOT happen before the
threshold evaluation: the trace places the threshold evaluation (and the
alert it triggers) before the audit write.  This falsifies the claimed
ordering persistence, then audit, then threshold. -/
theorem c1_counterexample :
    (decreaseStock envTest noFailures "alice" riceDB "Rice" 100).response =
      Response.ok "Quantity decreased" ∧
    ¬ OccursBefore
        (decreaseStock envTest noFailures "alice" riceDB "Rice" 100).trace
        Effect.isAuditWrite Effect.isThresholdEval := by decide

/-- C1 (amended): for every successful decrease, persistence of the new
quantity happens before the threshold evaluation (and any alert it
triggers), and the threshold evaluation happens before the audit-record
write.  The hypotheses are exactly the conditions of success, and the
response is proved to be the 200 reply. -/
theorem c1_amended_effect_order (env : Env) (f : Failures) (u : String)
    (db : DB) (name : String) (amount : Int) (stock : Stock)
    (hfind : findStockExact db name = some stock)
    (hamt : ¬ stock.qty < amount)
    (hss : f.stockSaveFails = false) (hls : f.logSaveFails = false) :
    (decreaseStock env f u db name amount).response =
      Response.ok "Quantity decreased" ∧
    OccursBefore (decreaseStock env f u db name amount).trace
      Effect.isPersistQty Effect.isThresholdEval ∧
    OccursBefore (decreaseStock env f u db name amount).trace
      Effect.isThresholdEval Effect.isAuditWrite := by
  rw [decrease_ok_eq env f u db name amount stock hfind hamt hss hls]
  have hkinds := decreaseAlerted_trace_kinds env f u db name amount stock
  have hA : ((decreaseAlerted env f u db name amount stock).2 ++
      [Effect.auditWrite (decreaseLog u name amount)]).findIdx
        Effect.isAuditWrite =
      (decreaseAlerted env f u db name amount stock).2.length :=
    findIdx_append_single _ _ _ (fun x hx => (hkinds x hx).2.2) rfl
  refine ⟨rfl, ?_, ?_⟩ <;>
    simp [OccursBefore, List.findIdx_cons, Effect.isPersistQty,
      Effect.isThresholdEval, Effect.isAuditWrite, hA]

/-- Witness for C1 (amended), at the run of the counterexample input. -/
theorem c1_witness :
    findStockExact riceDB "Rice" = some { name := "Rice", qty := 250 } ∧
    ¬ ({ name := "Rice", qty := 250 } : Stock).qty < 100 ∧
    ((decreaseStock envTest noFailures "alice" riceDB "Rice" 100).response =
      Response.ok "Quantity decreased" ∧
    OccursBefore (decreaseStock envTest noFailures "alice" riceDB "Rice" 100).trace
      Effect.isPersistQty Effect.isThresholdEval ∧
    OccursBefore (decreaseStock envTest noFailures "alice" riceDB "Rice" 100).trace
      Effect.isThresholdEval Effect.isAuditWrite) :=
  ⟨by decide, by decide,
    c1_amended_effect_order envTest noFailures "alice" riceDB "Rice" 100
      { name := "Rice", qty := 250 } (by decide) (by decide) rfl rfl⟩

/-- C4 counterexample: ghost (a non-empty username with no staff account)
takes Rice from 250 to 150.  The resulting quantity is below 200 and the
acting username is non-empty, yet zero Enquiry Records are persisted and
zero Notifier sends are attempted, against the claimed exactly-one. -/
theorem c4_counterexample :
    (decreaseStock envTest noFailures "ghost" riceNoStaffDB "Rice" 100).response =
      Response.ok "Quantity decreased" ∧
    ({ name := "Rice", qty := 250 } : Stock).qty - 100 < 200 ∧
    ("ghost" : String) ≠ "" ∧
    (decreaseStock envTest noFailures "ghost" riceNoStaffDB "Rice" 100).db.enquiries.length = 0 ∧
    (decreaseStock envTest noFailures "ghost" riceNoStaffDB "Rice" 100).trace.countP
      Effect.isEmailSend = 0 := by decide

/-- C4 (amended): for every decrease on an existing product (all saves
succeeding): at or above 200 no enquiry and no send; below 200 with a
non-empty acting username WHOSE STAFF ACCOUNT EXISTS, exactly one low-stock
Enquiry Record carrying the product, the resulting quantity and the amount
removed is persisted and exactly one Notifier send is attempted, the email
status being CRITICALLY LOW exactly when the resulting quantity is below
100; with an empty username nothing is persisted or sent. -/
theorem c4_amended_threshold_policy (env : Env) (u : String) (db : DB)
    (name : String) (amount : Int) (stock : Stock)
    (hfind : findStockExact db name = some stock)
    (hamt : ¬ stock.qty < amount) :
    (200 ≤ stock.qty - amount →
      (decreaseStock env noFailures u db name amount).db.enquiries =
        db.enquiries ∧
      (decreaseStock env noFailures u db name amount).trace.countP
        Effect.isEnquirySave = 0 ∧
      (decreaseStock env noFailures u db name amount).trace.countP
        Effect.isEmailSend = 0) ∧
    (∀ staff, stock.qty - amount < 200 → u ≠ "" →
      findStaffByUsername db u = some staff →
      (decreaseStock env noFailures u db name amount).db.enquiries =
        db.enquiries ++ [lowStockEnquiry staff name (stock.qty - amount) amount] ∧
      (decreaseStock env noFailures u db name amount).trace.countP
        Effect.isEnquirySave = 1 ∧
      (decreaseStock env noFailures u db name amount).trace.countP
        Effect.isEmailSend = 1 ∧
      (lowStockEnquiry staff name (stock.qty - amount) amount).productName = name ∧
      (lowStockEnquiry staff name (stock.qty - amount) amount).currentStock =
        some (stock.qty - amount) ∧
      (lowStockEnquiry staff name (stock.qty - amount) amount).quantity =
        some amount ∧
      (lowStockEnquiry staff name (stock.qty - amount) amount).staffUsername =
        some staff.username ∧
      (lowStockEnquiry staff name (stock.qty - amount) amount).type =
        "low_stock" ∧
      (alertStatus (stock.qty - amount) = "CRITICALLY LOW" ↔
        stock.qty - amount < 100)) ∧
    (u = "" →
      (decreaseStock env noFailures u db name amount).db.enquiries =
        db.enquiries ∧
      (decreaseStock env noFailures u db name amount).trace.countP
        Effect.isEnquirySave = 0 ∧
      (decreaseStock env noFailures u db name amount).trace.countP
        Effect.isEmailSend = 0) := by
  rw [decrease_ok_eq env noFailures u db name amount stock hfind hamt rfl rfl]
  refine ⟨?_, ?_, ?_⟩
  · intro hhigh
    have halert : decreaseAlerted env noFailures u db name amount stock =
        (decreaseDB1 db stock amount, []) := by
      unfold decreaseAlerted
      rw [if_neg]
      intro hc
      omega
    rw [halert]
    refine ⟨rfl, ?_, ?_⟩ <;>
      simp [List.countP_cons, Effect.isEnquirySave, Effect.isEmailSend]
  · intro staff hlow hu hstaff
    have halert : decreaseAlerted env noFailures u db name amount stock =
        ({ decreaseDB1 db stock amount with
            enquiries := (decreaseDB1 db stock amount).enquiries ++
              [lowStockEnquiry staff name (stock.qty - amount) amount] },
         [Effect.enquirySave (lowStockEnquiry staff name (stock.qty - amount) amount),
          Effect.emailSend (alertMailOptions env name (stock.qty - amount) amount staff)]) := by
      unfold decreaseAlerted
      rw [if_pos ⟨hlow, hu⟩]
      exact sendLowStockAlert_delivers env noFailures
        (decreaseDB1 db stock amount) u name (stock.qty - amount) amount staff
        hstaff rfl
    rw [halert]
    refine ⟨rfl, ?_, ?_, rfl, rfl, rfl, rfl, rfl,
      alertStatus_iff (stock.qty - amount)⟩ <;>
      simp [List.countP_cons, Effect.isEnquirySave, Effect.isEmailSend]
  · intro hu
    have halert : decreaseAlerted env noFailures u db name amount stock =
        (decreaseDB1 db stock amount, []) := by
      unfold decreaseAlerted
      rw [if_neg]
      intro hc
      exact hc.2 hu
    rw [halert]
    refine ⟨rfl, ?_, ?_⟩ <;>
      simp [List.countP_cons, Effect.isEnquirySave, Effect.isEmailSend]

/-- Witness for C4 (amended): the spec scenario, alice takes Rice from 250
to 150; exactly one low-stock Enquiry Record with resulting quantity 150
and amount removed 100 is persisted, and one send is attempted. -/
theorem c4_witness :
    findStockExact riceDB "Rice" = some { name := "Rice", qty := 250 } ∧
    ¬ ({ name := "Rice", qty := 250 } : Stock).qty < 100 ∧
    ({ name := "Rice", qty := 250 } : Stock).qty - 100 < 200 ∧
    ("alice" : String) ≠ "" ∧
    findStaffByUsername riceDB "alice" = some aliceStaff ∧
    ((decreaseStock envTest noFailures "alice" riceDB "Rice" 100).db.enquiries =
      riceDB.enquiries ++
        [lowStockEnquiry aliceStaff "Rice"
          (({ name := "Rice", qty := 250 } : Stock).qty - 100) 100] ∧
    (decreaseStock envTest noFailures "alice" riceDB "Rice" 100).trace.countP
      Effect.isEnquirySave = 1 ∧
    (decreaseStock envTest noFailures "alice" riceDB "Rice" 100).trace.countP
      Effect.isEmailSend = 1 ∧
    (lowStockEnquiry aliceStaff "Rice"
      (({ name := "Rice", qty := 250 } : Stock).qty - 100) 100).productName = "Rice" ∧
    (lowStockEnquiry aliceStaff "Rice"
      (({ name := "Rice", qty := 250 } : Stock).qty - 100) 100).currentStock =
      some (({ name := "Rice", qty := 250 } : Stock).qty - 100) ∧
    (lowStockEnquiry aliceStaff "Rice"
      (({ name := "Rice", qty := 250 } : Stock).qty - 100) 100).quantity = some 100 ∧
    (lowStockEnquiry aliceStaff "Rice"
      (({ name := "Rice", qty := 250 } : Stock).qty - 100) 100).staffUsername =
      some aliceStaff.username ∧
    (lowStockEnquiry aliceStaff "Rice"
      (({ name := "Rice", qty := 250 } : Stock).qty - 100) 100).type = "low_stock" ∧
    (alertStatus (({ name := "Rice", qty := 250 } : Stock).qty - 100) =
      "CRITICALLY LOW" ↔ ({ name := "Rice", qty := 250 } : Stock).qty - 100 < 100)) :=
  ⟨by decide, by decide, by decide, by decide, by decide,
    (c4_amended_threshold_policy envTest "alice" riceDB "Rice" 100
      { name := "Rice", qty := 250 } (by decide) (by decide)).2.1 aliceStaff
      (by decide) (by decide) (by decide)⟩

/-- C5: for every existing product and every amount strictly greater than
the current quantity, decrease returns the insufficient-stock error, leaves
the database (hence the quantity) unchanged, and performs no mutation at
all: no audit record, no enquiry record, no notification (empty effect
trace).  Holds for every failure pattern. -/
theorem c5_decrease_insufficient_no_mutation (env : Env) (f : Failures)
    (u : String) (db : DB) (name : String) (amount : Int) (stock : Stock)
    (hfind : findStockExact db name = some stock)
    (hgt : stock.qty < amount) :
    decreaseStock env f u db name amount =
      { response := Response.badRequest "Not enough stock", db := db,
        trace := [] } :=
  decrease_insufficient_eq env f u db name amount stock hfind hgt

/-- Witness for C5: Rice holds 250, decreasing by 300 is rejected with no
mutation. -/
theorem c5_witness :
    findStockExact riceDB "Rice" = some { name := "Rice", qty := 250 } ∧
    ({ name := "Rice", qty := 250 } : Stock).qty < 300 ∧
    decreaseStock envTest noFailures "alice" riceDB "Rice" 300 =
      { response := Response.badRequest "Not enough stock", db := riceDB,
        trace := [] } :=
  ⟨by decide, by decide,
    c5_decrease_insufficient_no_mutation envTest noFailures "alice" riceDB
      "Rice" 300 { name := "Rice", qty := 250 } (by decide) (by decide)⟩

/-- C2 counterexample: a decrease of Rice (250 by 10) whose quantity save
succeeds but whose audit StockLog save throws does NOT return success to
the caller: it returns the 500 server error.  This falsifies the claim that
only the initiating quantity persistence failure is surfaced. -/
theorem c2_counterexample :
    findStockExact riceDB "Rice" = some { name := "Rice", qty := 250 } ∧
    ¬ ({ name := "Rice", qty := 250 } : Stock).qty < 10 ∧
    logSaveOnlyFailure.stockSaveFails = false ∧
    (decreaseStock envTest logSaveOnlyFailure "alice" riceDB "Rice" 10).response ≠
      Response.ok "Quantity decreased" ∧
    (decreaseStock envTest logSaveOnlyFailure "alice" riceDB "Rice" 10).response =
      Response.serverError := by decide

/-- C2 (amended): for every decrease whose quantity persistence succeeds, a
failure inside the threshold evaluation (a throwing enquiry save or a failed
email delivery) is caught and logged and the call still returns success;
but a failure of the audit StockLog write is surfaced to the caller as a
server error, exactly like a failure of the initiating quantity
persistence. -/
theorem c2_amended_tail_failure_isolation (env : Env) (u : String) (db : DB)
    (name : String) (amount : Int) (stock : Stock) (fEnquiry fEmail : Bool)
    (hfind : findStockExact db name = some stock)
    (hamt : ¬ stock.qty < amount) :
    (decreaseStock env
        { stockSaveFails := false, logSaveFails := false,
          enquirySaveFails := fEnquiry, emailDeliveryFails := fEmail }
        u db name amount).response = Response.ok "Quantity decreased" ∧
    (decreaseStock env
        { stockSaveFails := false, logSaveFails := true,
          enquirySaveFails := fEnquiry, emailDeliveryFails := fEmail }
        u db name amount).response = Response.serverError := by
  constructor
  · rw [decrease_ok_eq env _ u db name amount stock hfind hamt rfl rfl]
  · rw [decrease_logfail_eq env _ u db name amount stock hfind hamt rfl rfl]

/-- Witness for C2 (amended): Rice at 250 decreased by 200 by alice, with
the enquiry save and the email delivery both failing, still replies 200;
the same decrease with a failing audit save replies 500. -/
theorem c2_witness :
    findStockExact riceDB "Rice" = some { name := "Rice", qty := 250 } ∧
    ¬ ({ name := "Rice", qty := 250 } : Stock).qty < 200 ∧
    (decreaseStock envTest
        { stockSaveFails := false, logSaveFails := false,
          enquirySaveFails := true, emailDeliveryFails := true }
        "alice" riceDB "Rice" 200).response = Response.ok "Quantity decreased" ∧
    (decreaseStock envTest
        { stockSaveFails := false, logSaveFails := true,
          enquirySaveFails := true, emailDeliveryFails := true }
        "alice" riceDB "Rice" 200).response = Response.serverError := by
  refine ⟨by decide, by decide, ?_, ?_⟩
  · exact (c2_amended_tail_failure_isolation envTest "alice" riceDB "Rice" 200
      { name := "Rice", qty := 250 } true true (by decide) (by decide)).1
  · exact (c2_amended_tail_failure_isolation envTest "alice" riceDB "Rice" 200
      { name := "Rice", qty := 250 } true true (by decide) (by decide)).2

/-- C9 counterexample: Rice is stored, and the name rice differs from it
only in letter case (the case-insensitive match holds), yet the increase
and decrease mutation operations do NOT find the product: they reply 404.
This falsifies case-insensitive matching for the mutation operations other
than addOrIncrease. -/
theorem c9_counterexample :
    ciMatch "Rice" "rice" ∧
    findStockCI riceDB "rice" = some { name := "Rice", qty := 250 } ∧
    (increaseStock noFailures "alice" riceDB "rice" 10).response =
      Response.notFound "Product not found" ∧
    (decreaseStock envTest noFailures "alice" riceDB "rice" 10).response =
      Response.notFound "Product not found" := by decide

/-- C9 (amended): only the addOrIncrease operation matches the stored name
case-insensitively (it then updates the stored product and replies 200);
the increase and decrease operations look the name up with an exact,
case-sensitive match and reply 404 whenever no exactly-equal stored name
exists, even when a name differing only in case is stored. -/
theorem c9_amended_lookup_case_sensitivity (env : Env) (u : String)
    (db : DB) (name : String) :
    (∀ stock q, 0 ≤ q → name ≠ "" → findStockCI db name = some stock →
      (addStock noFailures u db name (some q)).response =
        Response.ok "Stock added/updated" ∧
      (addStock noFailures u db name (some q)).db.stocks =
        saveStockQty db.stocks stock.name (stock.qty + q)) ∧
    (∀ amount, findStockExact db name = none →
      increaseStock noFailures u db name amount =
        { response := Response.notFound "Product not found", db := db,
          trace := [] } ∧
      decreaseStock env noFailures u db name amount =
        { response := Response.notFound "Product not found", db := db,
          trace := [] }) := by
  constructor
  · intro stock q hq hname hci
    unfold addStock
    rw [hci]
    have hv : ¬ (name = "" ∨ q < 0) := by
      push_neg
      exact ⟨hname, by omega⟩
    simp [if_neg hv, noFailures]
  · intro amount hnone
    constructor
    · unfold increaseStock
      rw [hnone]
    · unfold decreaseStock
      rw [hnone]

/-- Witness for C9 (amended): adding 10 to RICE updates the stored Rice;
increase and decrease on rice reply 404 against the same store. -/
theorem c9_witness :
    (0 : Int) ≤ 10 ∧ ("RICE" : String) ≠ "" ∧
    findStockCI riceDB "RICE" = some { name := "Rice", qty := 250 } ∧
    findStockExact riceDB "rice" = none ∧
    (addStock noFailures "alice" riceDB "RICE" (some 10)).db.stocks =
      saveStockQty riceDB.stocks "Rice" 260 ∧
    (increaseStock noFailures "alice" riceDB "rice" 10).response =
      Response.notFound "Product not found" := by
  refine ⟨by decide, by decide, by decide, by decide, ?_, ?_⟩
  · exact ((c9_amended_lookup_case_sensitivity envTest "alice" riceDB "RICE").1
      { name := "Rice", qty := 250 } 10 (by decide) (by decide) (by decide)).2
  · exact (((c9_amended_lookup_case_sensitivity envTest "alice" riceDB "rice").2
      10 (by decide)).1).symm ▸ rfl

/-- C10: a decrease that lands below 200 with a non-empty acting username
for which no staff account exists persists no enquiry record, attempts no
notification, and still returns success (with the quantity saved and the
audit record written). -/
theorem c10_missing_staff_skips_alert (env : Env) (u : String) (db : DB)
    (name : String) (amount : Int) (stock : Stock)
    (hfind : findStockExact db name = some stock)
    (hamt : ¬ stock.qty < amount)
    (hlow : stock.qty - amount < 200) (hu : u ≠ "")
    (hstaff : findStaffByUsername db u = none) :
    (decreaseStock env noFailures u db name amount).response =
      Response.ok "Quantity decreased" ∧
    (decreaseStock env noFailures u db name amount).db.enquiries =
      db.enquiries ∧
    (decreaseStock env noFailures u db name amount).trace.countP
      Effect.isEnquirySave = 0 ∧
    (decreaseStock env noFailures u db name amount).trace.countP
      Effect.isEmailSend = 0 := by
  have halert : decreaseAlerted env noFailures u db name amount stock =
      (decreaseDB1 db stock amount, []) := by
    unfold decreaseAlerted
    rw [if_pos ⟨hlow, hu⟩]
    exact sendLowStockAlert_staff_none env noFailures
      (decreaseDB1 db stock amount) u name (stock.qty - amount) amount hstaff
  rw [decrease_ok_eq env noFailures u db name amount stock hfind hamt rfl rfl,
    halert]
  refine ⟨rfl, rfl, ?_, ?_⟩ <;>
    simp [List.countP_cons, Effect.isEnquirySave, Effect.isEmailSend]

/-- Witness for C10: ghost decreases Rice from 250 to 150; no staff account
named ghost exists, so no enquiry and no email, yet the reply is 200. -/
theorem c10_witness :
    findStockExact riceDB "Rice" = some { name := "Rice", qty := 250 } ∧
    ¬ ({ name := "Rice", qty := 250 } : Stock).qty < 100 ∧
    ((250 : Int) - 100) < 200 ∧ ("ghost" : String) ≠ "" ∧
    findStaffByUsername riceDB "ghost" = none ∧
    ((decreaseStock envTest noFailures "ghost" riceDB "Rice" 100).response =
      Response.ok "Quantity decreased" ∧
    (decreaseStock envTest noFailures "ghost" riceDB "Rice" 100).db.enquiries =
      riceDB.enquiries ∧
    (decreaseStock envTest noFailures "ghost" riceDB "Rice" 100).trace.countP
      Effect.isEnquirySave = 0 ∧
    (decreaseStock envTest noFailures "ghost" riceDB "Rice" 100).trace.countP
      Effect.isEmailSend = 0) :=
  ⟨by decide, by decide, by decide, by decide, by decide,
    by
      have h := c10_missing_staff_skips_alert envTest "ghost" riceDB "Rice" 100
        { name := "Rice", qty := 250 } (by decide) (by decide) (by decide)
        (by decide) (by decide)
      exact h⟩

/-- C3 counterexample: the increase endpoint performs no validation of its
amount, so increasing Rice (at 250, a store satisfying the invariant) by
-500 drives the stored quantity to -250, violating quantity non-negativity.
This falsifies the claim for arbitrary sequences of the three mutation
operations. -/
theorem c3_counterexample :
    NonnegStocks riceDB ∧
    (applyOp envTest noFailures riceDB
      (StockOp.increase "alice" "Rice" (-500))).stocks =
      [{ name := "Rice", qty := -250 }] ∧
    ¬ NonnegStocks (applyOp envTest noFailures riceDB
      (StockOp.increase "alice" "Rice" (-500))) := by decide

/-- C3 (amended): provided every increase operation in the sequence carries
a non-negative amount (the add endpoint validates its own amount and the
decrease guard needs no side condition), every stored quantity stays
non-negative after any sequence of addOrIncrease, increase and decrease
requests, under any failure pattern; and any decrease that would drive a
quantity negative is rejected before any persistence, with no state change
and no effects. -/
theorem c3_amended_nonneg_invariant (env : Env) (f : Failures) (db : DB)
    (ops : List StockOp) (hinv : NonnegStocks db)
    (hops : ∀ op ∈ ops, IncreaseAmountNonneg op) :
    NonnegStocks (applyOps env f db ops) ∧
    (∀ u name amount stock, findStockExact db name = some stock →
      stock.qty < amount →
      decreaseStock env f u db name amount =
        { response := Response.badRequest "Not enough stock", db := db,
          trace := [] }) :=
  ⟨applyOps_nonneg env f db ops hinv hops,
   fun u name amount stock hfind hlt =>
     decrease_insufficient_eq env f u db name amount stock hfind hlt⟩

/-- Witness for C3 (amended): add Beans 300, decrease Beans 150, increase
Beans 20 on the Rice store; all quantities stay non-negative. -/
theorem c3_witness :
    NonnegStocks riceDB ∧
    (∀ op ∈ [StockOp.addOrIncrease "alice" "Beans" (some 300),
             StockOp.decrease "alice" "Beans" 150,
             StockOp.increase "alice" "Beans" 20], IncreaseAmountNonneg op) ∧
    NonnegStocks (applyOps envTest noFailures riceDB
      [StockOp.addOrIncrease "alice" "Beans" (some 300),
       StockOp.decrease "alice" "Beans" 150,
       StockOp.increase "alice" "Beans" 20]) :=
  ⟨by decide, by decide,
    (c3_amended_nonneg_invariant envTest noFailures riceDB
      [StockOp.addOrIncrease "alice" "Beans" (some 300),
       StockOp.decrease "alice" "Beans" 150,
       StockOp.increase "alice" "Beans" 20] (by decide) (by decide)).1⟩

/-- C6: addOrIncrease on a fresh name creates the product with quantity
equal to the amount and writes an audit record of kind Add; on an existing
(case-insensitively matched) name it saves the previous quantity plus the
amount and writes kind Increase; it rejects invalid input (empty or missing
name, missing or non-numeric or negative amount) with the invalid-input
error, persisting nothing. -/
theorem c6_addOrIncrease_spec (u : String) (db : DB) (name : String) :
    (∀ qty, (name = "" ∨ qty = none ∨ ∃ q, qty = some q ∧ q < 0) →
      addStock noFailures u db name qty =
        { response := Response.badRequest "Invalid input", db := db,
          trace := [] }) ∧
    (∀ q, 0 ≤ q → name ≠ "" → findStockCI db name = none →
      (addStock noFailures u db name (some q)).response =
        Response.ok "Stock added/updated" ∧
      (addStock noFailures u db name (some q)).db.stocks =
        db.stocks ++ [{ name := name, qty := q }] ∧
      (addStock noFailures u db name (some q)).db.logs = db.logs ++
        [{ productName := name, operation := "Add", amount := q,
           staffName := staffNameOrUnknown u }]) ∧
    (∀ q stock, 0 ≤ q → name ≠ "" → findStockCI db name = some stock →
      (addStock noFailures u db name (some q)).response =
        Response.ok "Stock added/updated" ∧
      (addStock noFailures u db name (some q)).db.stocks =
        saveStockQty db.stocks stock.name (stock.qty + q) ∧
      (addStock noFailures u db name (some q)).db.logs = db.logs ++
        [{ productName := name, operation := "Increase", amount := q,
           staffName := staffNameOrUnknown u }]) := by
  refine ⟨fun qty h => add_invalid_eq noFailures u db name qty h, ?_, ?_⟩
  · intro q hq hname hci
    have hv : ¬(name = "" ∨ q < 0) := by
      push_neg
      exact ⟨hname, by omega⟩
    rw [add_ok_fresh_eq noFailures u db name q hv hci rfl rfl]
    exact ⟨rfl, rfl, rfl⟩
  · intro q stock hq hname hci
    have hv : ¬(name = "" ∨ q < 0) := by
      push_neg
      exact ⟨hname, by omega⟩
    rw [add_ok_exist_eq noFailures u db name q stock hv hci rfl rfl]
    exact ⟨rfl, rfl, rfl⟩

/-- Witness for C6: a missing amount is rejected; Beans is created fresh at
10 with kind Add; RICE reaches the stored Rice and appends kind Increase. -/
theorem c6_witness :
    (addStock noFailures "alice" riceDB "Rice" none =
      { response := Response.badRequest "Invalid input", db := riceDB,
        trace := [] }) ∧
    ((0 : Int) ≤ 10 ∧ ("Beans" : String) ≠ "" ∧
      findStockCI riceDB "Beans" = none ∧
      (addStock noFailures "alice" riceDB "Beans" (some 10)).db.stocks =
        riceDB.stocks ++ [{ name := "Beans", qty := 10 }] ∧
      (addStock noFailures "alice" riceDB "Beans" (some 10)).db.logs =
        riceDB.logs ++
          [{ productName := "Beans", operation := "Add", amount := 10,
             staffName := staffNameOrUnknown "alice" }]) ∧
    (findStockCI riceDB "RICE" = some { name := "Rice", qty := 250 } ∧
      (addStock noFailures "alice" riceDB "RICE" (some 10)).db.stocks =
        saveStockQty riceDB.stocks "Rice" (250 + 10) ∧
      (addStock noFailures "alice" riceDB "RICE" (some 10)).db.logs =
        riceDB.logs ++
          [{ productName := "RICE", operation := "Increase", amount := 10,
             staffName := staffNameOrUnknown "alice" }]) :=
  ⟨(c6_addOrIncrease_spec "alice" riceDB "Rice").1 none (Or.inr (Or.inl rfl)),
   ⟨by decide, by decide, by decide,
    ((c6_addOrIncrease_spec "alice" riceDB "Beans").2.1 10 (by decide)
      (by decide) (by decide)).2.1,
    ((c6_addOrIncrease_spec "alice" riceDB "Beans").2.1 10 (by decide)
      (by decide) (by decide)).2.2⟩,
   ⟨by decide,
    ((c6_addOrIncrease_spec "alice" riceDB "RICE").2.2 10
      { name := "Rice", qty := 250 } (by decide) (by decide) (by decide)).2.1,
    ((c6_addOrIncrease_spec "alice" riceDB "RICE").2.2 10
      { name := "Rice", qty := 250 } (by decide) (by decide) (by decide)).2.2⟩⟩

/-- C7: every successful addOrIncrease, increase or decrease call appends
exactly one audit record whose product name, operation kind and amount
match the call and whose staff field is the acting username or the
Unknown Staff sentinel; every unsuccessful call leaves the audit log
unchanged.  Holds under every failure pattern. -/
theorem c7_audit_record_per_mutation (env : Env) (f : Failures) (u : String)
    (db : DB) (name : String) :
    (∀ qty, (addStock f u db name qty).response.isOk = false →
      (addStock f u db name qty).db.logs = db.logs) ∧
    (∀ q, (addStock f u db name (some q)).response.isOk = true →
      (addStock f u db name (some q)).db.logs = db.logs ++
        [{ productName := name,
           operation := if (findStockCI db name).isSome then "Increase"
             else "Add",
           amount := q, staffName := staffNameOrUnknown u }]) ∧
    (∀ amount, (increaseStock f u db name amount).response.isOk = false →
      (increaseStock f u db name amount).db.logs = db.logs) ∧
    (∀ amount, (increaseStock f u db name amount).response.isOk = true →
      (increaseStock f u db name amount).db.logs = db.logs ++
        [{ productName := name, operation := "Increase", amount := amount,
           staffName := staffNameOrUnknown u }]) ∧
    (∀ amount, (decreaseStock env f u db name amount).response.isOk = false →
      (decreaseStock env f u db name amount).db.logs = db.logs) ∧
    (∀ amount, (decreaseStock env f u db name amount).response.isOk = true →
      (decreaseStock env f u db name amount).db.logs = db.logs ++
        [{ productName := name, operation := "Decrease", amount := amount,
           staffName := staffNameOrUnknown u }]) := by
  refine ⟨?_, ?_, ?_, ?_, ?_, ?_⟩
  · intro qty hbad
    cases qty with
    | none => rw [add_invalid_eq f u db name none (Or.inr (Or.inl rfl))]
    | some q =>
      by_cases hv : name = "" ∨ q < 0
      · rw [add_invalid_eq f u db name (some q)
          (by rcases hv with h | h
              exacts [Or.inl h, Or.inr (Or.inr ⟨q, rfl, h⟩)])]
      · cases hci : findStockCI db name with
        | none =>
          cases hss : f.stockSaveFails with
          | true => rw [add_stockfail_eq f u db name q hv hss]
          | false =>
            cases hls : f.logSaveFails with
            | true => rw [add_logfail_fresh_eq f u db name q hv hci hss hls]
            | false =>
              rw [add_ok_fresh_eq f u db name q hv hci hss hls] at hbad
              simp [Response.isOk] at hbad
        | some stock =>
          cases hss : f.stockSaveFails with
          | true => rw [add_stockfail_eq f u db name q hv hss]
          | false =>
            cases hls : f.logSaveFails with
            | true =>
              rw [add_logfail_exist_eq f u db name q stock hv hci hss hls]
            | false =>
              rw [add_ok_exist_eq f u db name q stock hv hci hss hls] at hbad
              simp [Response.isOk] at hbad
  · intro q hok
    by_cases hv : name = "" ∨ q < 0
    · rw [add_invalid_eq f u db name (some q)
        (by rcases hv with h | h
            exacts [Or.inl h, Or.inr (Or.inr ⟨q, rfl, h⟩)])] at hok
      simp [Response.isOk] at hok
    · cases hci : findStockCI db name with
      | none =>
        cases hss : f.stockSaveFails with
        | true =>
          rw [add_stockfail_eq f u db name q hv hss] at hok
          simp [Response.isOk] at hok
        | false =>
          cases hls : f.logSaveFails with
          | true =>
            rw [add_logfail_fresh_eq f u db name q hv hci hss hls] at hok
            simp [Response.isOk] at hok
          | false =>
            rw [add_ok_fresh_eq f u db name q hv hci hss hls]
            simp [hci]
      | some stock =>
        cases hss : f.stockSaveFails with
        | true =>
          rw [add_stockfail_eq f u db name q hv hss] at hok
          simp [Response.isOk] at hok
        | false =>
          cases hls : f.logSaveFails with
          | true =>
            rw [add_logfail_exist_eq f u db name q stock hv hci hss hls] at hok
            simp [Response.isOk] at hok
          | false =>
            rw [add_ok_exist_eq f u db name q stock hv hci hss hls]
            simp [hci]
  · intro amount hbad
    cases hfind : findStockExact db name with
    | none => rw [inc_notfound_eq f u db name amount hfind]
    | some stock =>
      cases hss : f.stockSaveFails with
      | true => rw [inc_stockfail_eq f u db name amount stock hfind hss]
      | false =>
        cases hls : f.logSaveFails with
        | true => rw [inc_logfail_eq f u db name amount stock hfind hss hls]
        | false =>
          rw [inc_ok_eq f u db name amount stock hfind hss hls] at hbad
          simp [Response.isOk] at hbad
  · intro amount hok
    cases hfind : findStockExact db name with
    | none =>
      rw [inc_notfound_eq f u db name amount hfind] at hok
      simp [Response.isOk] at hok
    | some stock =>
      cases hss : f.stockSaveFails with
      | true =>
        rw [inc_stockfail_eq f u db name amount stock hfind hss] at hok
        simp [Response.isOk] at hok
      | false =>
        cases hls : f.logSaveFails with
        | true =>
          rw [inc_logfail_eq f u db name amount stock hfind hss hls] at hok
          simp [Response.isOk] at hok
        | false =>
          rw [inc_ok_eq f u db name amount stock hfind hss hls]
  · intro amount hbad
    cases hfind : findStockExact db name with
    | none => rw [dec_notfound_eq env f u db name amount hfind]
    | some stock =>
      by_cases hamt : stock.qty < amount
      · rw [decrease_insufficient_eq env f u db name amount stock hfind hamt]
      · cases hss : f.stockSaveFails with
        | true => rw [dec_stockfail_eq env f u db name amount stock hfind hamt hss]
        | false =>
          cases hls : f.logSaveFails with
          | true =>
            rw [decrease_logfail_eq env f u db name amount stock hfind hamt
              hss hls]
            exact (decreaseAlerted_preserves env f u db name amount stock).2
          | false =>
            rw [decrease_ok_eq env f u db name amount stock hfind hamt hss
              hls] at hbad
            simp [Response.isOk] at hbad
  · intro amount hok
    cases hfind : findStockExact db name with
    | none =>
      rw [dec_notfound_eq env f u db name amount hfind] at hok
      simp [Response.isOk] at hok
    | some stock =>
      by_cases hamt : stock.qty < amount
      · rw [decrease_insufficient_eq env f u db name amount stock hfind
          hamt] at hok
        simp [Response.isOk] at hok
      · cases hss : f.stockSaveFails with
        | true =>
          rw [dec_stockfail_eq env f u db name amount stock hfind hamt
            hss] at hok
          simp [Response.isOk] at hok
        | false =>
          cases hls : f.logSaveFails with
          | true =>
            rw [decrease_logfail_eq env f u db name amount stock hfind hamt
              hss hls] at hok
            simp [Response.isOk] at hok
          | false =>
            rw [decrease_ok_eq env f u db name amount stock hfind hamt hss hls]
            show (decreaseAlerted env f u db name amount stock).1.logs ++
              [decreaseLog u name amount] = _
            rw [(decreaseAlerted_preserves env f u db name amount stock).2]
            rfl

/-- Witness for C7: a fresh add by alice appends one Add record; an
anonymous insufficient decrease appends nothing; an anonymous increase
appends one record carrying the Unknown Staff sentinel. -/
theorem c7_witness :
    ((addStock noFailures "alice" riceDB "Beans" (some 5)).response.isOk =
      true ∧
     (addStock noFailures "alice" riceDB "Beans" (some 5)).db.logs =
      riceDB.logs ++
        [{ productName := "Beans",
           operation := if (findStockCI riceDB "Beans").isSome then "Increase"
             else "Add",
           amount := 5, staffName := staffNameOrUnknown "alice" }]) ∧
    ((decreaseStock envTest noFailures "" riceDB "Rice" 300).response.isOk =
      false ∧
     (decreaseStock envTest noFailures "" riceDB "Rice" 300).db.logs =
      riceDB.logs) ∧
    ((increaseStock noFailures "" riceDB "Rice" 5).response.isOk = true ∧
     (increaseStock noFailures "" riceDB "Rice" 5).db.logs = riceDB.logs ++
       [{ productName := "Rice", operation := "Increase", amount := 5,
          staffName := staffNameOrUnknown "" }]) :=
  ⟨⟨by decide,
    (c7_audit_record_per_mutation envTest noFailures "alice" riceDB
      "Beans").2.1 5 (by decide)⟩,
   ⟨by decide,
    (c7_audit_record_per_mutation envTest noFailures "" riceDB
      "Rice").2.2.2.2.1 300 (by decide)⟩,
   ⟨by decide,
    (c7_audit_record_per_mutation envTest noFailures "" riceDB
      "Rice").2.2.2.1 5 (by decide)⟩⟩

/-- C8: sendEmail is total and returns either a success or a failure value
(it never raises); an email delivery failure during a decrease that crosses
the threshold (with the alert actually attempted) still yields the 200
reply with exactly one send attempted, and an email delivery failure during
a staff enquiry submission still yields the 200 reply. -/
theorem c8_notifier_failure_isolation (env : Env) :
    (∀ b mail, (∃ id, sendEmail b mail = SendResult.success id) ∨
      (∃ e, sendEmail b mail = SendResult.failure e)) ∧
    (∀ u db name amount stock staff,
      findStockExact db name = some stock → ¬ stock.qty < amount →
      stock.qty - amount < 200 → u ≠ "" →
      findStaffByUsername db u = some staff →
      (decreaseStock env emailOnlyFailure u db name amount).response =
        Response.ok "Quantity decreased" ∧
      (decreaseStock env emailOnlyFailure u db name amount).trace.countP
        Effect.isEmailSend = 1) ∧
    (∀ u db nm em productName quantity message staff, u ≠ "" →
      findStaffByUsername db u = some staff →
      (submitEnquiry env emailOnlyFailure u db nm em productName quantity
        message).response = Response.ok "Enquiry submitted successfully!") := by
  refine ⟨?_, ?_, ?_⟩
  · intro b mail
    cases b with
    | false => exact Or.inl ⟨"message-id", rfl⟩
    | true => exact Or.inr ⟨"Brevo API error", rfl⟩
  · intro u db name amount stock staff hfind hamt hlow hu hstaff
    rw [decrease_ok_eq env emailOnlyFailure u db name amount stock hfind hamt
      rfl rfl]
    have halert : decreaseAlerted env emailOnlyFailure u db name amount stock =
        ({ decreaseDB1 db stock amount with
            enquiries := (decreaseDB1 db stock amount).enquiries ++
              [lowStockEnquiry staff name (stock.qty - amount) amount] },
         [Effect.enquirySave
            (lowStockEnquiry staff name (stock.qty - amount) amount),
          Effect.emailSend
            (alertMailOptions env name (stock.qty - amount) amount staff)]) := by
      unfold decreaseAlerted
      rw [if_pos ⟨hlow, hu⟩]
      exact sendLowStockAlert_delivers env emailOnlyFailure
        (decreaseDB1 db stock amount) u name (stock.qty - amount) amount staff
        hstaff rfl
    rw [halert]
    exact ⟨rfl, by simp [List.countP_cons, Effect.isEmailSend,
      Effect.isEnquirySave]⟩
  · intro u db nm em productName quantity message staff hu hstaff
    unfold submitEnquiry
    rw [if_neg hu, hstaff]
    rfl

/-- Witness for C8: alice takes Rice to 150 with the email transport
failing; the decrease still replies 200 with one send attempted, and an
enquiry submission under the same failing transport also replies 200. -/
theorem c8_witness :
    findStockExact riceDB "Rice" = some { name := "Rice", qty := 250 } ∧
    ¬ ({ name := "Rice", qty := 250 } : Stock).qty < 100 ∧
    ({ name := "Rice", qty := 250 } : Stock).qty - 100 < 200 ∧
    ("alice" : String) ≠ "" ∧
    findStaffByUsername riceDB "alice" = some aliceStaff ∧
    ((decreaseStock envTest emailOnlyFailure "alice" riceDB "Rice" 100).response =
      Response.ok "Quantity decreased" ∧
     (decreaseStock envTest emailOnlyFailure "alice" riceDB "Rice" 100).trace.countP
      Effect.isEmailSend = 1) ∧
    (submitEnquiry envTest emailOnlyFailure "alice" riceDB "Alice"
      "alice@smarttrack.test" "Rice" 50 "please restock").response =
      Response.ok "Enquiry submitted successfully!" :=
  ⟨by decide, by decide, by decide, by decide, by decide,
   (c8_notifier_failure_isolation envTest).2.1 "alice" riceDB "Rice" 100
     { name := "Rice", qty := 250 } aliceStaff (by decide) (by decide)
     (by decide) (by decide) (by decide),
   (c8_notifier_failure_isolation envTest).2.2 "alice" riceDB "Alice"
     "alice@smarttrack.test" "Rice" 50 "please restock" aliceStaff
     (by decide) (by decide)⟩

end SmartTrack
